import Mathlib

/-!
Verification of the gesture_video repository: a shallow embedding of the
swipe debouncer (`predictWebcam` / `triggerCooldown` in `src/src/App.tsx`
and `src/unnamed/part_000`) and the feed controller (`handleSwipe` in both
files), together with theorems settling the specification's claims.
-/

namespace GestureVideo

/-- The swipe event type: the string literals `'NEXT' | 'PREV'` passed to
`onSwipe` in both source files. -/
inductive SwipeEvent
  | NEXT
  | PREV
deriving DecidableEq, Repr

/-- The debouncer's mutable state: `lastYRef` (`number | null`) and
`isCooldownRef` (`boolean`) from `GestureController` in both files. -/
structure DebouncerState where
  lastY : Option ℚ
  cooling : Bool
deriving DecidableEq, Repr

/-- Initial debouncer state: `useRef<number | null>(null)` and
`useRef(false)` in `GestureController`. -/
def initDebouncer : DebouncerState := { lastY := none, cooling := false }

/-- The movement threshold: `const threshold = 0.08;` inside
`predictWebcam` (src/src/App.tsx line 93, src/unnamed/part_000 line 104). -/
def threshold : ℚ := 8 / 100

/-- One step of the gesture block of `predictWebcam`
(src/src/App.tsx lines 82–108): the input is `some currY` when
`results.landmarks.length > 0` (then `currY = wrist.y`), `none` otherwise.
When a hand is detected and `lastYRef.current !== null && !isCooldownRef.current`,
the delta `currY - lastY` is compared against the threshold; an emission
calls `triggerCooldown` (which synchronously sets `isCooldownRef.current = true`)
and then `lastYRef.current = currY` runs unconditionally. When no hand is
detected, only `lastYRef.current = null` runs. -/
def predictStep (s : DebouncerState) (sample : Option ℚ) :
    DebouncerState × Option SwipeEvent :=
  match sample with
  | none => ({ lastY := none, cooling := s.cooling }, none)
  | some currY =>
    match s.lastY, s.cooling with
    | some ly, false =>
      if currY - ly < -threshold then
        ({ lastY := some currY, cooling := true }, some SwipeEvent.NEXT)
      else if currY - ly > threshold then
        ({ lastY := some currY, cooling := true }, some SwipeEvent.PREV)
      else
        ({ lastY := some currY, cooling := false }, none)
    | _, _ => ({ lastY := some currY, cooling := s.cooling }, none)

/-- The body of the `setTimeout` callback in `triggerCooldown`
(src/src/App.tsx lines 118–123): at cooldown expiry,
`isCooldownRef.current = false; lastYRef.current = null;`. -/
def cooldownExpire (_ : DebouncerState) : DebouncerState :=
  { lastY := none, cooling := false }

/-- The debouncer step as the spec prescribes it, parameterized over the
threshold value (spec §4.1: "THRESHOLD ... must be a configurable
parameter, not a hard-coded constant"); used to compare against the
source's `predictStep`, whose threshold is the local constant 0.08. -/
def stepWithThreshold (thr : ℚ) (s : DebouncerState) (sample : Option ℚ) :
    DebouncerState × Option SwipeEvent :=
  match sample with
  | none => ({ lastY := none, cooling := s.cooling }, none)
  | some currY =>
    match s.lastY, s.cooling with
    | some ly, false =>
      if currY - ly < -thr then
        ({ lastY := some currY, cooling := true }, some SwipeEvent.NEXT)
      else if currY - ly > thr then
        ({ lastY := some currY, cooling := true }, some SwipeEvent.PREV)
      else
        ({ lastY := some currY, cooling := false }, none)
    | _, _ => ({ lastY := some currY, cooling := s.cooling }, none)

/-- One frame of `predictWebcam` with its guards (src/src/App.tsx
lines 72–110): the gesture block runs only when `videoWidth > 0`
(`videoReady`), a 2D context was obtained (`hasCtx`) and `debugMode`
is truthy; otherwise the debouncer state is untouched and nothing is
emitted. -/
def predictFrame (debugMode hasCtx videoReady : Bool) (s : DebouncerState)
    (sample : Option ℚ) : DebouncerState × Option SwipeEvent :=
  if videoReady && (hasCtx && debugMode) then predictStep s sample
  else (s, none)

/-- Running the per-frame loop over a whole input sequence: each frame
carries its own `hasCtx`/`videoReady` guards and its sample; events are
collected in order. -/
def runFrames (debugMode : Bool) (frames : List (Bool × Bool × Option ℚ))
    (s : DebouncerState) : DebouncerState × List SwipeEvent :=
  match frames with
  | [] => (s, [])
  | (hasCtx, videoReady, sample) :: rest =>
    let r := predictFrame debugMode hasCtx videoReady s sample
    let rest' := runFrames debugMode rest r.1
    (rest'.1, r.2.toList ++ rest'.2)

/-- One panel of the color variant: the entries of `COLORS`
(src/src/App.tsx lines 5–10). -/
structure ColorPanel where
  id : ℕ
  color : String
  title : String
deriving DecidableEq, Repr

/-- `const COLORS = [...]` from src/src/App.tsx. -/
def COLORS : List ColorPanel :=
  [ { id := 1, color := "#FF5733", title := "红色页面 (Red)" },
    { id := 2, color := "#33FF57", title := "绿色页面 (Green)" },
    { id := 3, color := "#3357FF", title := "蓝色页面 (Blue)" },
    { id := 4, color := "#F333FF", title := "紫色页面 (Purple)" } ]

/-- One entry of the video variant's `VIDEOS` list
(src/unnamed/part_000 lines 5–30). -/
structure VideoItem where
  id : ℕ
  url : String
  title : String
  desc : String
deriving DecidableEq, Repr

/-- `const VIDEOS = [...]` from src/unnamed/part_000. -/
def VIDEOS : List VideoItem :=
  [ { id := 1,
      url := "https://storage.googleapis.com/gtv-videos-bucket/sample/BigBuckBunny.mp4",
      title := "Big Buck Bunny", desc := "经典的开源动画测试视频" },
    { id := 2,
      url := "https://storage.googleapis.com/gtv-videos-bucket/sample/ElephantsDream.mp4",
      title := "Elephants Dream", desc := "3D 建模测试" },
    { id := 3,
      url := "https://storage.googleapis.com/gtv-videos-bucket/sample/ForBiggerBlazes.mp4",
      title := "For Bigger Blazes", desc := "高清风景演示" },
    { id := 4,
      url := "https://storage.googleapis.com/gtv-videos-bucket/sample/TearsOfSteel.mp4",
      title := "Tears of Steel", desc := "科幻实拍合成" } ]

/-- A `scrollTo` request: the `top` pixel offset passed to
`containerRef.current?.scrollTo` (`newIndex * window.innerHeight`). -/
structure ScrollRequest where
  top : ℤ
deriving DecidableEq, Repr

/-- `useState(0)`: `activeIndex` at startup in both variants. -/
def initialActiveIndex : ℤ := 0

/-- `handleSwipe` of the color variant (src/src/App.tsx lines 162–179):
given the direction, the previous `activeIndex` and `window.innerHeight`,
returns the new index and the `scrollTo` request issued iff the index
changed. -/
def handleSwipe (direction : SwipeEvent) (prevIndex innerHeight : ℤ) :
    ℤ × Option ScrollRequest :=
  let newIndex : ℤ :=
    if direction = SwipeEvent.NEXT ∧ prevIndex < (COLORS.length : ℤ) - 1 then
      prevIndex + 1
    else if direction = SwipeEvent.PREV ∧ prevIndex > 0 then
      prevIndex - 1
    else prevIndex
  (newIndex, if newIndex ≠ prevIndex then some ⟨newIndex * innerHeight⟩ else none)

/-- `handleSwipe` of the video variant (src/unnamed/part_000
lines 169–186): identical logic with `VIDEOS.length` panels. -/
def handleSwipeVideo (direction : SwipeEvent) (prevIndex innerHeight : ℤ) :
    ℤ × Option ScrollRequest :=
  let newIndex : ℤ :=
    if direction = SwipeEvent.NEXT ∧ prevIndex < (VIDEOS.length : ℤ) - 1 then
      prevIndex + 1
    else if direction = SwipeEvent.PREV ∧ prevIndex > 0 then
      prevIndex - 1
    else prevIndex
  (newIndex, if newIndex ≠ prevIndex then some ⟨newIndex * innerHeight⟩ else none)

/-- C1: with cooling false and a present baseline, delta below `-threshold`
emits exactly one NEXT and enters cooldown; delta above `threshold` emits
exactly one PREV and enters cooldown; otherwise no event; and the two
emitting conditions are mutually exclusive. -/
theorem C1_step_emission (ly currY : ℚ) :
    (currY - ly < -threshold →
      predictStep ⟨some ly, false⟩ (some currY) =
        (⟨some currY, true⟩, some SwipeEvent.NEXT)) ∧
    (currY - ly > threshold →
      predictStep ⟨some ly, false⟩ (some currY) =
        (⟨some currY, true⟩, some SwipeEvent.PREV)) ∧
    (¬ currY - ly < -threshold → ¬ currY - ly > threshold →
      predictStep ⟨some ly, false⟩ (some currY) = (⟨some currY, false⟩, none)) ∧
    ¬ (currY - ly < -threshold ∧ currY - ly > threshold) := by
  refine ⟨?_, ?_, ?_, ?_⟩
  · intro h
    simp [predictStep, h]
  · intro h
    have h' : ¬ currY - ly < -threshold := by
      have : (0 : ℚ) < threshold := by norm_num [threshold]
      linarith
    simp [predictStep, h, h']
  · intro h1 h2
    simp [predictStep, h1, h2]
  · rintro ⟨h1, h2⟩
    have : (0 : ℚ) < threshold := by norm_num [threshold]
    linarith

/-- Witness for C1 at the spec's own scenario: y from 0.5 to 0.3,
delta = −0.2 < −0.08, so a single NEXT is emitted and cooldown entered. -/
theorem C1_step_emission_witness :
    (3/10 : ℚ) - 1/2 < -threshold ∧
    predictStep ⟨some (1/2), false⟩ (some (3/10)) =
      (⟨some (3/10), true⟩, some SwipeEvent.NEXT) := by
  have h : (3/10 : ℚ) - 1/2 < -threshold := by norm_num [threshold]
  exact ⟨h, (C1_step_emission (1/2) (3/10)).1 h⟩

/-- C2: the FeedState invariant `0 ≤ activeIndex < panelCount` holds at all
times: it holds at startup (`activeIndex = 0`, `panelCount = COLORS.length`),
and every `handleSwipe` transition from a state satisfying it produces a
state still satisfying it. -/
theorem C2_feed_invariant (d : SwipeEvent) (i h : ℤ)
    (hi : 0 ≤ i ∧ i < (COLORS.length : ℤ)) :
    (0 ≤ initialActiveIndex ∧ initialActiveIndex < (COLORS.length : ℤ)) ∧
    (0 ≤ (handleSwipe d i h).1 ∧ (handleSwipe d i h).1 < (COLORS.length : ℤ)) := by
  refine ⟨by norm_num [initialActiveIndex, COLORS], ?_⟩
  obtain ⟨h0, h4⟩ := hi
  simp only [COLORS, List.length] at h4 ⊢
  cases d <;> simp only [handleSwipe, COLORS, List.length] <;> split_ifs <;>
    simp_all <;> omega

/-- Witness for C2 at the top boundary: index 3 with NEXT stays in range. -/
theorem C2_feed_invariant_witness :
    ((0 : ℤ) ≤ 3 ∧ (3 : ℤ) < (COLORS.length : ℤ)) ∧
    (0 ≤ (handleSwipe SwipeEvent.NEXT 3 800).1 ∧
      (handleSwipe SwipeEvent.NEXT 3 800).1 < (COLORS.length : ℤ)) :=
  ⟨by decide, (C2_feed_invariant SwipeEvent.NEXT 3 800 (by decide)).2⟩

/-- C3: while `cooling` is true, a debouncer step emits no event,
whatever the sample. -/
theorem C3_no_emit_while_cooling (s : DebouncerState) (sample : Option ℚ)
    (h : s.cooling = true) : (predictStep s sample).2 = none := by
  obtain ⟨ly, c⟩ := s
  cases c
  · cases h
  · cases sample <;> cases ly <;> simp [predictStep]

/-- Witness for C3: a cooling state with a large downward delta still
emits nothing. -/
theorem C3_no_emit_while_cooling_witness :
    (DebouncerState.mk (some (1/2)) true).cooling = true ∧
    (predictStep ⟨some (1/2), true⟩ (some (99/100))).2 = none :=
  ⟨rfl, C3_no_emit_while_cooling ⟨some (1/2), true⟩ (some (99/100)) rfl⟩

/-- C4: cooldown expiry sets `cooling = false` and `lastY = none`, and
therefore the first sample processed after expiry never emits an event,
whatever its value (it only re-seeds the baseline). -/
theorem C4_post_expiry_no_emit (s : DebouncerState) (sample : Option ℚ) :
    cooldownExpire s = { lastY := none, cooling := false } ∧
    (predictStep (cooldownExpire s) sample).2 = none := by
  refine ⟨rfl, ?_⟩
  cases sample <;> simp [predictStep, cooldownExpire]

/-- C5: `handleSwipe` increments iff the index is below the last panel on
NEXT, decrements iff it is above 0 on PREV; when the index changes a scroll
request to `newIndex * innerHeight` is issued, and when it does not change
no scroll request is issued. -/
theorem C5_swipe_transitions (d : SwipeEvent) (i h : ℤ) :
    (d = SwipeEvent.NEXT →
      ((handleSwipe d i h).1 = i + 1 ↔ i < (COLORS.length : ℤ) - 1) ∧
      (¬ i < (COLORS.length : ℤ) - 1 → (handleSwipe d i h).1 = i)) ∧
    (d = SwipeEvent.PREV →
      ((handleSwipe d i h).1 = i - 1 ↔ 0 < i) ∧
      (¬ 0 < i → (handleSwipe d i h).1 = i)) ∧
    ((handleSwipe d i h).1 ≠ i →
      (handleSwipe d i h).2 = some ⟨(handleSwipe d i h).1 * h⟩) ∧
    ((handleSwipe d i h).1 = i → (handleSwipe d i h).2 = none) := by
  refine ⟨?_, ?_, ?_, ?_⟩
  · rintro rfl
    constructor
    · simp only [handleSwipe, COLORS, List.length]
      split_ifs <;> simp_all <;> try omega
    · intro hb
      simp only [handleSwipe, COLORS, List.length] at hb ⊢
      split_ifs <;> simp_all <;> try omega
  · rintro rfl
    constructor
    · simp only [handleSwipe, COLORS, List.length]
      split_ifs <;> simp_all <;> try omega
    · intro hb
      simp only [handleSwipe, COLORS, List.length] at hb ⊢
      split_ifs <;> simp_all <;> try omega
  · intro hne
    simp only [handleSwipe] at hne ⊢
    split_ifs at hne ⊢ <;> simp_all
  · intro heq
    simp only [handleSwipe] at heq ⊢
    split_ifs at heq ⊢ <;> simp_all

/-- Witness for C5: from index 0, NEXT increments to 1 and issues a scroll
to `1 * 800`; from index 0, PREV is a no-op with no scroll request. -/
theorem C5_swipe_transitions_witness :
    (handleSwipe SwipeEvent.NEXT 0 800).1 = 0 + 1 ∧
    (handleSwipe SwipeEvent.PREV 0 800).1 = 0 ∧
    (handleSwipe SwipeEvent.PREV 0 800).2 = none := by
  refine ⟨?_, ?_, ?_⟩
  · exact ((C5_swipe_transitions SwipeEvent.NEXT 0 800).1 rfl).1.mpr (by decide)
  · exact ((C5_swipe_transitions SwipeEvent.PREV 0 800).2.1 rfl).2 (by decide)
  · exact (C5_swipe_transitions SwipeEvent.PREV 0 800).2.2.2 (by decide)

/-- C6 counterexample: an absent sample observed while cooling clears only
`lastY`; the cooling flag stays `true`, so the state is NOT reset to
`{absent, false}` as the claim asserts. -/
theorem C6_gap_reset_counterexample :
    predictStep ⟨some (1/2), true⟩ none = (⟨none, true⟩, none) ∧
    (⟨none, true⟩ : DebouncerState) ≠ initDebouncer := by
  constructor
  · rfl
  · intro h
    cases h

/-- C6 amended: a gap (absent sample) clears `lastY` to absent and emits no
event, but leaves the cooling flag unchanged — cooling is cleared only by
the cooldown timer's expiry, not by the gap itself. -/
theorem C6_gap_clears_lastY (s : DebouncerState) :
    predictStep s none = ({ lastY := none, cooling := s.cooling }, none) := by
  rfl

/-- C7 counterexample: while cooling, a step on a detected sample does
change the state — `lastY` is overwritten with the sample's y
(the assignment `lastYRef.current = currY` is outside the
`!isCooldownRef.current` guard). -/
theorem C7_frozen_baseline_counterexample :
    predictStep ⟨some (1/2), true⟩ (some (9/10)) = (⟨some (9/10), true⟩, none) ∧
    (⟨some (9/10), true⟩ : DebouncerState) ≠ ⟨some (1/2), true⟩ := by
  refine ⟨rfl, ?_⟩
  intro h
  have : (9/10 : ℚ) = 1/2 := by
    have := congrArg DebouncerState.lastY h
    simpa using this
  norm_num at this

/-- C7 amended: while cooling, a step on a detected sample emits no event
and leaves `cooling = true`, but it does update `lastY` to the sample's y. -/
theorem C7_cooling_updates_lastY (s : DebouncerState) (y : ℚ)
    (h : s.cooling = true) :
    predictStep s (some y) = ({ lastY := some y, cooling := true }, none) := by
  obtain ⟨ly, c⟩ := s
  cases c
  · cases h
  · cases ly <;> simp [predictStep]

/-- Witness for the amended C7 at a concrete cooling state and sample. -/
theorem C7_cooling_updates_lastY_witness :
    (DebouncerState.mk (some (1/2)) true).cooling = true ∧
    predictStep ⟨some (1/2), true⟩ (some (7/10)) =
      ({ lastY := some (7/10), cooling := true }, none) :=
  ⟨rfl, C7_cooling_updates_lastY ⟨some (1/2), true⟩ (7/10) rfl⟩

/-- C8 counterexample: the emission decision is fixed to 0.08, not
parameterized: on a delta of 0.1 the source's step emits PREV, while the
spec's parameterized step configured with threshold 0.2 emits nothing, so
the source's behavior is not that of a step configured with any threshold
other than 0.08. -/
theorem C8_threshold_counterexample :
    (predictStep ⟨some (1/2), false⟩ (some (3/5))).2 = some SwipeEvent.PREV ∧
    (stepWithThreshold (2/10) ⟨some (1/2), false⟩ (some (3/5))).2 = none := by
  constructor
  · norm_num [predictStep, threshold]
  · norm_num [stepWithThreshold]

/-- C8 amended: the threshold is a hard-coded local constant 0.08 in the
step function, not a configurable parameter: the source's step coincides
with the spec's parameterized step exactly at threshold = 0.08. -/
theorem C8_threshold_hardcoded (s : DebouncerState) (sample : Option ℚ) :
    predictStep s sample = stepWithThreshold (8/100) s sample := by
  obtain ⟨ly, c⟩ := s
  cases sample <;> cases ly <;> cases c <;>
    simp [predictStep, stepWithThreshold, threshold]

/-- C9: the gesture block runs only behind the `ctx && debugMode` (and
`videoWidth > 0`) guard: a frame with no canvas 2D context does nothing,
a frame with `debugMode = false` does nothing, and with `debugMode = false`
a whole input sequence leaves the debouncer state untouched and emits no
event at all. -/
theorem C9_debug_gate (dm hasCtx videoReady : Bool) (s : DebouncerState)
    (sample : Option ℚ) (frames : List (Bool × Bool × Option ℚ)) :
    predictFrame dm false videoReady s sample = (s, none) ∧
    predictFrame false hasCtx videoReady s sample = (s, none) ∧
    runFrames false frames s = (s, []) := by
  refine ⟨?_, ?_, ?_⟩
  · simp [predictFrame]
  · simp [predictFrame]
  · induction frames with
    | nil => rfl
    | cons f rest ih =>
      obtain ⟨c, v, smp⟩ := f
      simp [runFrames, predictFrame, ih]

/-- C10: the color-panel variant and the video-feed variant implement the
same feed-controller function: for every direction, prior index and
viewport height, both `handleSwipe` implementations compute the same new
index and issue the same (possibly absent) scroll request. -/
theorem C10_variants_equivalent (d : SwipeEvent) (i h : ℤ) :
    handleSwipe d i h = handleSwipeVideo d i h := by
  cases d <;> simp [handleSwipe, handleSwipeVideo, COLORS, VIDEOS]

end GestureVideo
